import Mathlib

/- Shallow embedding of the role-aware RAG retrieval engine
   (app/rag_pipeline.py, app/document_loader.py, app/file_parser.py,
   app/main.py).  Pure data is modelled directly; the external Chroma
   vector index and the Anthropic answer generator are modelled as
   function parameters with the contracts the code relies on. -/

/- Registry metadata stored in RAGPipeline.document_metadata for one id. -/
structure DocMeta where
  source : String
  department : String
  allowed_roles : List String
deriving DecidableEq, Repr

/- Metadata stored alongside a document in the Chroma collection
   (rag_pipeline.py lines 66-69 and 111-114): source and department.
   department is Option because retrieve reads it with .get(default). -/
structure IndexMeta where
  source : String
  department : Option String
deriving DecidableEq, Repr

/- One candidate row of a Chroma query result: id, document text, metadata
   (the zip of ids, documents, metadatas in retrieve). -/
structure Candidate where
  docId : String
  content : String
  metadata : IndexMeta
deriving DecidableEq, Repr

/- The dict entries of RAGPipeline.document_metadata. -/
abbrev Registry := List (String × DocMeta)

/- An item of the list returned by retrieve (the doc_item dict). -/
structure RetrievedDoc where
  content : String
  source : String
  department : String
deriving DecidableEq, Repr

/- DocumentLoader.ROLE_ACCESS_MAP (document_loader.py lines 10-16). -/
def DocumentLoader.ROLE_ACCESS_MAP : List (String × List String) :=
  [("finance", ["finance", "c-level"]),
   ("marketing", ["marketing", "c-level"]),
   ("hr", ["hr", "c-level"]),
   ("engineering", ["engineering", "c-level"]),
   ("general", ["finance", "marketing", "hr", "engineering", "c-level", "employee"])]

/- Dictionary lookup in ROLE_ACCESS_MAP. -/
def roleAccess (department : String) : Option (List String) :=
  (DocumentLoader.ROLE_ACCESS_MAP.find? (fun p => p.1 == department)).map Prod.snd

/- self.document_metadata.get(doc_id): dictionary lookup by id. -/
def lookupMeta (registry : Registry) (docId : String) : Option DocMeta :=
  (registry.find? (fun p => p.1 == docId)).map Prod.snd

/- self.document_metadata.get(doc_id, {}).get("allowed_roles", [])
   (rag_pipeline.py line 143): an unresolvable id yields the empty list. -/
def allowedRolesOf (registry : Registry) (docId : String) : List String :=
  match lookupMeta registry docId with
  | some m => m.allowed_roles
  | none => []

/- The access-filter condition of retrieve (rag_pipeline.py line 146):
   role in allowed_roles or role == "c-level". -/
def hasAccess (registry : Registry) (role : String) (c : Candidate) : Bool :=
  (allowedRolesOf registry c.docId).contains role || role == "c-level"

/- metadata.get("department", "") == "general" (rag_pipeline.py lines 144, 154). -/
def isGeneralCand (c : Candidate) : Bool :=
  c.metadata.department.getD "" == "general"

/- The doc_item dict built for a retained candidate (rag_pipeline.py 147-151). -/
def toDocItem (c : Candidate) : RetrievedDoc :=
  { content := c.content
    source := c.metadata.source
    department := c.metadata.department.getD "" }

/- The filtering loop of retrieve (rag_pipeline.py lines 141-157): one pass
   over the zipped candidates, appending each retained item to the
   department_specific or the general_docs list. -/
def partitionDocs (registry : Registry) (role : String) :
    List Candidate → List RetrievedDoc × List RetrievedDoc
  | [] => ([], [])
  | c :: rest =>
    let p := partitionDocs registry role rest
    if hasAccess registry role c then
      if isGeneralCand c then (p.1, toDocItem c :: p.2)
      else (toDocItem c :: p.1, p.2)
    else p

/- The Chroma collection.query call, abstracted: the query text and the
   requested n_results determine an ordered (best-first) candidate list. -/
abbrev VectorIndex := String → Nat → List Candidate

/- RAGPipeline.retrieve (rag_pipeline.py lines 119-167): over-fetch
   top_k * 3 candidates, filter and split by the loop above, then take the
   first top_k department-specific items and fill remaining slots with
   general ones. -/
def RAGPipeline.retrieve (registry : Registry) (vi : VectorIndex)
    (query : String) (role : String) (top_k : Nat := 3) : List RetrievedDoc :=
  let cands := vi query (top_k * 3)
  let p := partitionDocs registry role cands
  let retrieved := p.1.take top_k
  if retrieved.length < top_k then
    retrieved ++ p.2.take (top_k - retrieved.length)
  else retrieved

/- The answer generator (Anthropic messages.create), abstracted as a
   function from question and context to either a completion or an error. -/
abbrev Composer := String → List RetrievedDoc → Except String String

/- RAGPipeline.generate_response (rag_pipeline.py lines 169-194): on any
   exception from the client it returns the error text in-band. -/
def RAGPipeline.generate_response (compose : Composer) (query : String)
    (context : List RetrievedDoc) : String :=
  match compose query context with
  | Except.ok t => t
  | Except.error e => "Error generating response: " ++ e

/- The dict returned by RAGPipeline.query. -/
structure QueryResult where
  answer : String
  sources : List String
  role : String
  query : String
deriving DecidableEq, Repr

/- RAGPipeline.query (rag_pipeline.py lines 230-251): retrieve with the
   default top_k = 3, short-circuit on the empty result, otherwise generate
   and package sources in retrieval order. -/
def RAGPipeline.query (registry : Registry) (vi : VectorIndex)
    (compose : Composer) (question : String) (role : String) : QueryResult :=
  let retrieved_docs := RAGPipeline.retrieve registry vi question role
  if retrieved_docs.isEmpty then
    { answer := "No documents found accessible to " ++ role ++ " role for this query."
      sources := []
      role := role
      query := question }
  else
    { answer := RAGPipeline.generate_response compose question retrieved_docs
      sources := retrieved_docs.map (fun d => d.source)
      role := role
      query := question }

/- The mutable state of a RAGPipeline instance: the Chroma collection
   contents, the document_metadata dict, and the id counter. -/
structure PipelineState where
  collection : List Candidate
  document_metadata : Registry
  doc_counter : Nat
deriving Repr

/- RAGPipeline.add_document (rag_pipeline.py lines 74-117): assign
   doc_<counter>, bump the counter, store registry metadata, add to the
   collection with source and department metadata, return the id. -/
def RAGPipeline.add_document (st : PipelineState) (content : String)
    (source : String) (department : String) (allowed_roles : List String) :
    String × PipelineState :=
  let doc_id := "doc_" ++ toString st.doc_counter
  (doc_id,
   { doc_counter := st.doc_counter + 1
     document_metadata := st.document_metadata ++
       [(doc_id, { source := source, department := department,
                   allowed_roles := allowed_roles })]
     collection := st.collection ++
       [{ docId := doc_id, content := content,
          metadata := { source := source, department := some department } }] })

/- FileParser.SUPPORTED_FORMATS (file_parser.py line 19). -/
def FileParser.SUPPORTED_FORMATS : List String := [".md", ".csv", ".pdf"]

/- Characters after the last occurrence of sep, the whole list when sep is
   absent (the final path component of pathlib). -/
def afterLastSep (sep : Char) : List Char → List Char
  | [] => []
  | c :: rest =>
    if c == sep then afterLastSep sep rest
    else if rest.contains sep then afterLastSep sep rest
    else c :: rest

/- str.lower / Char-wise ASCII lowering (the filenames involved are ASCII). -/
def lowerString (s : String) : String :=
  String.mk (s.data.map Char.toLower)

/- pathlib Path(filename).suffix: the final path component's extension from
   its last dot, empty when the dot is the first or the last character. -/
def pathSuffix (filename : String) : String :=
  let cs := afterLastSep '/' filename.data
  match ((List.range cs.length).filter (fun i => cs.getD i ' ' == '.')).getLast? with
  | some i => if 0 < i && i < cs.length - 1 then String.mk (cs.drop i) else ""
  | none => ""

/- FileParser.validate_filename (file_parser.py lines 82-85). -/
def FileParser.validate_filename (filename : String) : Bool :=
  FileParser.SUPPORTED_FORMATS.contains (lowerString (pathSuffix filename))

/- FileParser.parse_file (file_parser.py lines 21-48).  The markdown branch
   decodes the bytes we already model as text; the pandas CSV reader and the
   pdfplumber extractor are external and passed in as oracles that either
   yield text or fail. -/
def FileParser.parse_file (csvRead pdfRead : String → Except String String)
    (file_content : String) (filename : String) :
    Except String (String × String) :=
  let file_ext := lowerString (pathSuffix filename)
  if file_ext == ".md" then Except.ok (file_content, "markdown")
  else if file_ext == ".csv" then
    match csvRead file_content with
    | Except.ok s => Except.ok (s, "csv")
    | Except.error e => Except.error ("Failed to parse CSV: " ++ e)
  else if file_ext == ".pdf" then
    match pdfRead file_content with
    | Except.ok s => Except.ok (s, "pdf")
    | Except.error e => Except.error ("Failed to parse PDF: " ++ e)
  else Except.error ("Unsupported file format: " ++ file_ext ++
    ". Supported: .md, .csv, .pdf")

/- FileParser.get_department_from_filename (file_parser.py lines 87-111):
   first department whose keyword list has a substring hit in the lowered
   filename, None otherwise. -/
def FileParser.get_department_from_filename (filename : String) : Option String :=
  let name_lower := lowerString filename
  let departments : List (String × List String) :=
    [("finance", ["finance", "financial", "quarterly", "revenue", "expense"]),
     ("marketing", ["marketing", "campaign", "sales", "customer"]),
     ("hr", ["hr", "employee", "payroll", "attendance"]),
     ("engineering", ["engineering", "technical", "architecture", "development"])]
  (departments.find?
    (fun p => p.2.any (fun kw => decide (kw.data <:+: name_lower.data)))).map Prod.fst

/- valid_departments (main.py line 175). -/
def VALID_DEPARTMENTS : List String :=
  ["finance", "marketing", "hr", "engineering", "general"]

/- The HTTPException outcomes of the upload endpoint. -/
inductive HTTPError where
  | forbidden (detail : String)
  | badRequest (detail : String)
deriving DecidableEq, Repr

/- The UploadResponse model of main.py. -/
structure UploadResponse where
  message : String
  filename : String
  doc_id : String
  department : String
  accessible_roles : List String
deriving DecidableEq, Repr

/- upload_document (main.py lines 121-207), for an initialized pipeline:
   403 for a caller that is not c-level, then filename validation, file
   parsing, department inference when the given department is missing or
   empty (Python falsiness of the empty string), department validation,
   role derivation, and finally add_document.  Every error path leaves the
   state untouched. -/
def upload_document (csvRead pdfRead : String → Except String String)
    (st : PipelineState) (filename : String) (file_content : String)
    (department? : Option String) (role : String) :
    PipelineState × Except HTTPError UploadResponse :=
  if role != "c-level" then
    (st, Except.error (HTTPError.forbidden "Only C-level executives can upload documents"))
  else if !(FileParser.validate_filename filename) then
    (st, Except.error (HTTPError.badRequest "Unsupported file format. Supported: MD, CSV, PDF"))
  else
    match FileParser.parse_file csvRead pdfRead file_content filename with
    | Except.error e => (st, Except.error (HTTPError.badRequest e))
    | Except.ok (content, _fmt) =>
      let dept? : Option String :=
        match department? with
        | some d => if d == "" then FileParser.get_department_from_filename filename
                    else some d
        | none => FileParser.get_department_from_filename filename
      match dept? with
      | none =>
        (st, Except.error (HTTPError.badRequest
          ("Could not infer department from filename. " ++
           "Please specify department (finance, marketing, hr, engineering, general)")))
      | some department =>
        if !(VALID_DEPARTMENTS.contains department) then
          (st, Except.error (HTTPError.badRequest
            ("Invalid department: " ++ department ++
             ". Valid departments: finance, marketing, hr, engineering, general")))
        else
          let accessible_roles :=
            if department == "general" then
              ["finance", "marketing", "hr", "engineering", "c-level", "employee"]
            else [department, "c-level"]
          let r := RAGPipeline.add_document st content filename department accessible_roles
          (r.2, Except.ok
            { message := "Document uploaded successfully"
              filename := filename
              doc_id := r.1
              department := department
              accessible_roles := accessible_roles })

/- Specification-side predicate: the vector-index metadata of a candidate
   agrees with its registry entry, and the registry entry's roles are the
   ones ROLE_ACCESS_MAP assigns to its department (true whenever both rows
   were written by the same loader or add_document call). -/
def consistentB (registry : Registry) (c : Candidate) : Bool :=
  match lookupMeta registry c.docId with
  | some m =>
      c.metadata.department == some m.department &&
      roleAccess m.department == some m.allowed_roles
  | none => true

/- Specification-side: the candidates a role survives the access filter on,
   in raw index order, before the department split and truncation. -/
def accessibleItems (registry : Registry) (role : String)
    (cands : List Candidate) : List RetrievedDoc :=
  (cands.filter (fun c => hasAccess registry role c)).map toDocItem

/- Concrete sample data used by witnesses (spec section 8 scenario). -/
def financeMeta : DocMeta :=
  { source := "finance/q4_report.md", department := "finance",
    allowed_roles := ["finance", "c-level"] }

def generalMeta : DocMeta :=
  { source := "general/holidays.md", department := "general",
    allowed_roles := ["finance", "marketing", "hr", "engineering", "c-level", "employee"] }

def sampleRegistry : Registry := [("doc_0", financeMeta), ("doc_1", generalMeta)]

def candA : Candidate :=
  { docId := "doc_0", content := "Q4 revenue was 45M",
    metadata := { source := "finance/q4_report.md", department := some "finance" } }

def candB : Candidate :=
  { docId := "doc_1", content := "Company holidays list",
    metadata := { source := "general/holidays.md", department := some "general" } }

def sampleVi : VectorIndex := fun _ _ => [candA, candB]

/- A candidate whose id has no registry entry (for skew scenarios). -/
def candOrphan : Candidate :=
  { docId := "doc_9", content := "stray row",
    metadata := { source := "finance/stray.md", department := some "finance" } }

/- A candidate whose index metadata has no department key. -/
def candNoDept : Candidate :=
  { docId := "doc_0", content := "Q4 revenue was 45M",
    metadata := { source := "finance/q4_report.md", department := none } }

/- A concrete pipeline state holding the two sample documents. -/
def sampleState : PipelineState :=
  { collection := [candA, candB]
    document_metadata := sampleRegistry
    doc_counter := 2 }

theorem partitionDocs_eq (registry : Registry) (role : String)
    (cands : List Candidate) :
    partitionDocs registry role cands =
      ((cands.filter (fun c => hasAccess registry role c && !(isGeneralCand c))).map toDocItem,
       (cands.filter (fun c => hasAccess registry role c && isGeneralCand c)).map toDocItem) := by
  induction cands with
  | nil => rfl
  | cons c rest ih =>
    by_cases h1 : hasAccess registry role c
    · by_cases h2 : isGeneralCand c = true
      · simp [partitionDocs, ih, h1, h2, List.filter_cons]
      · simp [partitionDocs, ih, h1, h2, List.filter_cons]
    · simp [partitionDocs, ih, h1, List.filter_cons]

theorem retrieve_eq (registry : Registry) (vi : VectorIndex)
    (query role : String) (top_k : Nat) :
    RAGPipeline.retrieve registry vi query role top_k =
      (partitionDocs registry role (vi query (top_k * 3))).1.take top_k ++
      (partitionDocs registry role (vi query (top_k * 3))).2.take
        (top_k - ((partitionDocs registry role (vi query (top_k * 3))).1.take top_k).length) := by
  unfold RAGPipeline.retrieve
  by_cases h :
      ((partitionDocs registry role (vi query (top_k * 3))).1.take top_k).length < top_k
  · rw [if_pos h]
  · have hlen :
        ((partitionDocs registry role (vi query (top_k * 3))).1.take top_k).length = top_k := by
      have hle := List.length_take_le top_k
        (partitionDocs registry role (vi query (top_k * 3))).1
      omega
    simp [h, hlen]

theorem mem_retrieve_access (registry : Registry) (vi : VectorIndex)
    (query role : String) (top_k : Nat) :
    ∀ item ∈ RAGPipeline.retrieve registry vi query role top_k,
      ∃ c ∈ vi query (top_k * 3),
        item = toDocItem c ∧ hasAccess registry role c = true := by
  intro item hitem
  rw [retrieve_eq, partitionDocs_eq] at hitem
  rcases List.mem_append.mp hitem with h | h
  · have hmem := List.mem_of_mem_take h
    rcases List.mem_map.mp hmem with ⟨c, hc, hci⟩
    have hcf := List.mem_filter.mp hc
    have hacc : hasAccess registry role c = true := by
      have h2 := hcf.2
      simp only [Bool.and_eq_true] at h2
      exact h2.1
    exact ⟨c, hcf.1, hci.symm, hacc⟩
  · have hmem := List.mem_of_mem_take h
    rcases List.mem_map.mp hmem with ⟨c, hc, hci⟩
    have hcf := List.mem_filter.mp hc
    have hacc : hasAccess registry role c = true := by
      have h2 := hcf.2
      simp only [Bool.and_eq_true] at h2
      exact h2.1
    exact ⟨c, hcf.1, hci.symm, hacc⟩

theorem hasAccess_resolve (registry : Registry) (role : String) (c : Candidate)
    (hrole : role ≠ "c-level") (h : hasAccess registry role c = true) :
    ∃ m, lookupMeta registry c.docId = some m ∧ role ∈ m.allowed_roles := by
  have h2 : role ∈ allowedRolesOf registry c.docId ∨ role = "c-level" := by
    simpa [hasAccess] using h
  rcases h2 with h1 | h1
  · unfold allowedRolesOf at h1
    cases hl : lookupMeta registry c.docId with
    | none => rw [hl] at h1; simp at h1
    | some m => rw [hl] at h1; exact ⟨m, rfl, h1⟩
  · exact absurd h1 hrole

theorem string_data_append (s t : String) : (s ++ t).data = s.data ++ t.data := by
  cases s; cases t; rfl

theorem mem_partition_fst_dept (registry : Registry) (role : String)
    (cands : List Candidate) :
    ∀ item ∈ (partitionDocs registry role cands).1, item.department ≠ "general" := by
  rw [partitionDocs_eq]
  intro item h
  rcases List.mem_map.mp h with ⟨c, hc, hci⟩
  have h2 := (List.mem_filter.mp hc).2
  have hg : isGeneralCand c = false := by
    cases hgb : isGeneralCand c with
    | false => rfl
    | true => rw [hgb] at h2; simp at h2
  have hgn : c.metadata.department.getD "" ≠ "general" := by
    simpa [isGeneralCand] using hg
  intro hEq
  apply hgn
  rw [← hci] at hEq
  simpa [toDocItem] using hEq

theorem mem_partition_snd_dept (registry : Registry) (role : String)
    (cands : List Candidate) :
    ∀ item ∈ (partitionDocs registry role cands).2, item.department = "general" := by
  rw [partitionDocs_eq]
  intro item h
  rcases List.mem_map.mp h with ⟨c, hc, hci⟩
  have h2 := (List.mem_filter.mp hc).2
  have hg : isGeneralCand c = true := by
    cases hgb : isGeneralCand c with
    | true => rfl
    | false => rw [hgb] at h2; simp at h2
  have hgn : c.metadata.department.getD "" = "general" := by
    simpa [isGeneralCand] using hg
  rw [← hci]
  simpa [toDocItem] using hgn

/-- C1: department isolation.  For every query, limit, and non-privileged
role (any role other than c-level), every item returned by retrieve comes
from a candidate whose registry entry lists the role in allowed_roles; when
the registry and the index metadata are mutually consistent the item's
department is therefore a department whose ROLE_ACCESS_MAP role set
contains the role. -/
theorem retrieve_department_isolation (registry : Registry) (vi : VectorIndex)
    (query role : String) (top_k : Nat)
    (hrole : role ≠ "c-level")
    (hwf : ∀ c ∈ vi query (top_k * 3), consistentB registry c = true) :
    ∀ item ∈ RAGPipeline.retrieve registry vi query role top_k,
      ∃ c ∈ vi query (top_k * 3), ∃ m,
        lookupMeta registry c.docId = some m ∧
        role ∈ m.allowed_roles ∧
        item = toDocItem c ∧
        item.department = m.department ∧
        roleAccess item.department = some m.allowed_roles := by
  intro item hitem
  rcases mem_retrieve_access registry vi query role top_k item hitem with
    ⟨c, hc, hitem_eq, hacc⟩
  rcases hasAccess_resolve registry role c hrole hacc with ⟨m, hl, hrm⟩
  have hcons := hwf c hc
  unfold consistentB at hcons
  rw [hl] at hcons
  simp only [Bool.and_eq_true, beq_iff_eq] at hcons
  have hdep : item.department = m.department := by
    rw [hitem_eq]
    simp [toDocItem, hcons.1]
  refine ⟨c, hc, m, hl, hrm, hitem_eq, hdep, ?_⟩
  rw [hdep]
  exact hcons.2

/-- C1 witness: the finance role at limit 1 on the sample corpus. -/
theorem retrieve_department_isolation_witness :
    (("finance" : String) ≠ "c-level") ∧
    (∀ c ∈ sampleVi "revenue" (1 * 3), consistentB sampleRegistry c = true) ∧
    ∀ item ∈ RAGPipeline.retrieve sampleRegistry sampleVi "revenue" "finance" 1,
      ∃ c ∈ sampleVi "revenue" (1 * 3), ∃ m,
        lookupMeta sampleRegistry c.docId = some m ∧
        "finance" ∈ m.allowed_roles ∧
        item = toDocItem c ∧
        item.department = m.department ∧
        roleAccess item.department = some m.allowed_roles :=
  ⟨by decide, by decide,
   retrieve_department_isolation sampleRegistry sampleVi "revenue" "finance" 1
     (by decide) (by decide)⟩

/-- C2: privilege bypass.  The filter loop of retrieve retains a candidate
exactly when the role is in the candidate's stored allowed_roles or the
role is c-level, and the c-level role passes the filter for every
candidate. -/
theorem access_filter_retains_iff (registry : Registry) (role : String)
    (cands : List Candidate) :
    (partitionDocs registry role cands =
      ((cands.filter (fun c => hasAccess registry role c && !(isGeneralCand c))).map toDocItem,
       (cands.filter (fun c => hasAccess registry role c && isGeneralCand c)).map toDocItem)) ∧
    (∀ c : Candidate, hasAccess registry role c = true ↔
      (role ∈ allowedRolesOf registry c.docId ∨ role = "c-level")) ∧
    (role = "c-level" → ∀ c : Candidate, hasAccess registry role c = true) := by
  refine ⟨partitionDocs_eq registry role cands, ?_, ?_⟩
  · intro c
    simp [hasAccess]
  · intro h c
    simp [hasAccess, h]

/-- C2 witness: the c-level bypass on a candidate absent from the registry. -/
theorem access_filter_retains_iff_witness :
    hasAccess sampleRegistry "c-level" candOrphan = true :=
  (access_filter_retains_iff sampleRegistry "c-level" [candOrphan]).2.2 rfl candOrphan

/-- C3: department-aware ranking.  retrieve equals the first up-to-limit
department-specific items followed by general items filling the remaining
slots; both groups are order-preserving sublists of the candidate order;
the result never exceeds limit and is the whole accessible list, with no
padding, when fewer accessible items than limit exist. -/
theorem retrieve_ranking (registry : Registry) (vi : VectorIndex)
    (query role : String) (limit : Nat) :
    (RAGPipeline.retrieve registry vi query role limit =
      (partitionDocs registry role (vi query (limit * 3))).1.take limit ++
      (partitionDocs registry role (vi query (limit * 3))).2.take
        (limit - ((partitionDocs registry role (vi query (limit * 3))).1.take limit).length)) ∧
    (partitionDocs registry role (vi query (limit * 3))).1.Sublist
      ((vi query (limit * 3)).map toDocItem) ∧
    (partitionDocs registry role (vi query (limit * 3))).2.Sublist
      ((vi query (limit * 3)).map toDocItem) ∧
    (RAGPipeline.retrieve registry vi query role limit).length ≤ limit ∧
    ((partitionDocs registry role (vi query (limit * 3))).1.length +
       (partitionDocs registry role (vi query (limit * 3))).2.length ≤ limit →
      RAGPipeline.retrieve registry vi query role limit =
        (partitionDocs registry role (vi query (limit * 3))).1 ++
        (partitionDocs registry role (vi query (limit * 3))).2) := by
  refine ⟨retrieve_eq registry vi query role limit, ?_, ?_, ?_, ?_⟩
  · rw [partitionDocs_eq]
    exact (List.filter_sublist _).map toDocItem
  · rw [partitionDocs_eq]
    exact (List.filter_sublist _).map toDocItem
  · rw [retrieve_eq, List.length_append]
    have h1 := List.length_take_le limit
      (partitionDocs registry role (vi query (limit * 3))).1
    have h2 := List.length_take_le
      (limit - ((partitionDocs registry role (vi query (limit * 3))).1.take limit).length)
      (partitionDocs registry role (vi query (limit * 3))).2
    omega
  · intro hle
    rw [retrieve_eq]
    have hl1 : (partitionDocs registry role (vi query (limit * 3))).1.length ≤ limit := by
      omega
    rw [List.take_of_length_le hl1]
    have hl2 : (partitionDocs registry role (vi query (limit * 3))).2.length ≤
        limit - (partitionDocs registry role (vi query (limit * 3))).1.length := by
      omega
    rw [List.take_of_length_le hl2]

/-- C3 witness: limit 3 over the two accessible sample documents returns
both, department-specific first, with no padding. -/
theorem retrieve_ranking_witness :
    RAGPipeline.retrieve sampleRegistry sampleVi "revenue" "finance" 3 =
      (partitionDocs sampleRegistry "finance" (sampleVi "revenue" (3 * 3))).1 ++
      (partitionDocs sampleRegistry "finance" (sampleVi "revenue" (3 * 3))).2 :=
  (retrieve_ranking sampleRegistry sampleVi "revenue" "finance" 3).2.2.2.2 (by decide)

/-- C4: InvalidDepartment atomicity.  For an authorized caller, a supported
and parseable file, and an explicitly supplied non-empty department outside
the valid set, upload fails with the invalid-department message and the
pipeline state - registry metadata and collection alike - is exactly the
input state: no partial registration. -/
theorem upload_invalid_department_atomic
    (csvRead pdfRead : String → Except String String) (st : PipelineState)
    (filename file_content d role : String)
    (hrole : role = "c-level")
    (hname : FileParser.validate_filename filename = true)
    (hparse : ∃ pc fmt,
      FileParser.parse_file csvRead pdfRead file_content filename = Except.ok (pc, fmt))
    (hd0 : d ≠ "")
    (hd : d ∉ VALID_DEPARTMENTS) :
    upload_document csvRead pdfRead st filename file_content (some d) role =
      (st, Except.error (HTTPError.badRequest
        ("Invalid department: " ++ d ++
         ". Valid departments: finance, marketing, hr, engineering, general"))) := by
  rcases hparse with ⟨pc, fmt, hp⟩
  have hc : VALID_DEPARTMENTS.contains d = false := by
    simpa using hd
  have hne : (d == "") = false := by
    simpa using hd0
  subst hrole
  simp [upload_document, hname, hp, hc, hne, hd]

/-- C4 witness: uploading a markdown file tagged with the unknown
department legal is rejected and the state is untouched. -/
theorem upload_invalid_department_atomic_witness :
    FileParser.validate_filename "report.md" = true ∧
    ("legal" : String) ∉ VALID_DEPARTMENTS ∧
    upload_document (fun _ => Except.error "x") (fun _ => Except.error "x")
        sampleState "report.md" "hello world" (some "legal") "c-level" =
      (sampleState, Except.error (HTTPError.badRequest
        ("Invalid department: " ++ "legal" ++
         ". Valid departments: finance, marketing, hr, engineering, general"))) :=
  ⟨by decide, by decide,
   upload_invalid_department_atomic (fun _ => Except.error "x")
     (fun _ => Except.error "x") sampleState "report.md" "hello world" "legal"
     "c-level" rfl (by decide) ⟨"hello world", "markdown", rfl⟩
     (by decide) (by decide)⟩

/-- C5: empty-result handling.  query is total; when retrieve is empty it
returns the fixed no-accessible-documents message with empty sources and
does not consult the composer (the result is a constant in which the
composer does not occur); otherwise the answer comes from the composer via
generate_response and sources are the retrieved source labels in order. -/
theorem query_empty_short_circuit (registry : Registry) (vi : VectorIndex)
    (compose : Composer) (question role : String) :
    (RAGPipeline.retrieve registry vi question role = [] →
      RAGPipeline.query registry vi compose question role =
        { answer := "No documents found accessible to " ++ role ++ " role for this query."
          sources := []
          role := role
          query := question }) ∧
    (RAGPipeline.retrieve registry vi question role ≠ [] →
      RAGPipeline.query registry vi compose question role =
        { answer := RAGPipeline.generate_response compose question
            (RAGPipeline.retrieve registry vi question role)
          sources := (RAGPipeline.retrieve registry vi question role).map
            (fun d => d.source)
          role := role
          query := question }) := by
  constructor
  · intro h
    simp [RAGPipeline.query, h]
  · intro h
    have hne : (RAGPipeline.retrieve registry vi question role).isEmpty = false := by
      cases hl : RAGPipeline.retrieve registry vi question role with
      | nil => exact absurd hl h
      | cons a l => rfl
    simp [RAGPipeline.query, hne]

/-- C5 witness: a role with no access gets the fixed message and empty
sources; an accessible role gets composed output with ordered sources. -/
theorem query_empty_short_circuit_witness :
    RAGPipeline.retrieve sampleRegistry sampleVi "revenue" "guest" = [] ∧
    RAGPipeline.query sampleRegistry sampleVi (fun _ _ => Except.ok "hi")
        "revenue" "guest" =
      { answer := "No documents found accessible to " ++ "guest" ++ " role for this query."
        sources := []
        role := "guest"
        query := "revenue" } :=
  ⟨by decide,
   (query_empty_short_circuit sampleRegistry sampleVi (fun _ _ => Except.ok "hi")
     "revenue" "guest").1 (by decide)⟩

/-- C6 counterexample: the claim extends the drop of unresolvable
candidates to the full-access role, but c-level passes the access filter
through its bypass even when the candidate's id has no registry entry, so
retrieve returns the orphaned candidate built from index metadata alone. -/
theorem unresolvable_retained_for_clevel_cex :
    lookupMeta ([] : Registry) candOrphan.docId = none ∧
    RAGPipeline.retrieve ([] : Registry) (fun _ _ => [candOrphan]) "q" "c-level" 3 =
      [toDocItem candOrphan] := by
  constructor
  · rfl
  · decide

/-- C6 amended: for every non-privileged role, any candidate whose id has
no registry entry is excluded from the retrieve result, silently; the
full-access c-level role instead retains such candidates via its bypass. -/
theorem retrieve_drops_unresolvable (registry : Registry) (vi : VectorIndex)
    (query role : String) (top_k : Nat) (hrole : role ≠ "c-level") :
    ∀ item ∈ RAGPipeline.retrieve registry vi query role top_k,
      ∃ c ∈ vi query (top_k * 3),
        item = toDocItem c ∧ (lookupMeta registry c.docId).isSome = true := by
  intro item hitem
  rcases mem_retrieve_access registry vi query role top_k item hitem with
    ⟨c, hc, heq, hacc⟩
  rcases hasAccess_resolve registry role c hrole hacc with ⟨m, hl, _⟩
  refine ⟨c, hc, heq, ?_⟩
  rw [hl]
  rfl

/-- C6 amended witness: the finance role on a candidate list containing an
orphaned id only ever receives resolvable documents. -/
theorem retrieve_drops_unresolvable_witness :
    (("finance" : String) ≠ "c-level") ∧
    ∀ item ∈ RAGPipeline.retrieve sampleRegistry
        (fun _ _ => [candOrphan, candA]) "q" "finance" 3,
      ∃ c ∈ (fun (_ : String) (_ : Nat) => [candOrphan, candA]) "q" (3 * 3),
        item = toDocItem c ∧ (lookupMeta sampleRegistry c.docId).isSome = true :=
  ⟨by decide,
   retrieve_drops_unresolvable sampleRegistry (fun _ _ => [candOrphan, candA])
     "q" "finance" 3 (by decide)⟩

/-- C7 counterexample: employee's accessible set is a subset of finance's
(per ROLE_ACCESS_MAP and the consistent sample registry), both roles are
non-privileged, yet at limit 1 the general document is returned to the
employee and not to finance, whose single slot is taken by the preferred
department-specific document: retrieval is not monotone in the role. -/
theorem retrieve_role_monotonicity_cex :
    (∀ p ∈ DocumentLoader.ROLE_ACCESS_MAP, "employee" ∈ p.2 → "finance" ∈ p.2) ∧
    (∀ p ∈ sampleRegistry, "employee" ∈ p.2.allowed_roles → "finance" ∈ p.2.allowed_roles) ∧
    ("employee" : String) ≠ "c-level" ∧ ("finance" : String) ≠ "c-level" ∧
    (∀ c ∈ sampleVi "revenue" (1 * 3), consistentB sampleRegistry c = true) ∧
    ∃ item ∈ RAGPipeline.retrieve sampleRegistry sampleVi "revenue" "employee" 1,
      item ∉ RAGPipeline.retrieve sampleRegistry sampleVi "revenue" "finance" 1 := by
  decide

/-- C7 amended: under the same subset hypothesis, every document retrieved
for the weaker non-privileged role survives the stronger role's access
filter (it is among the stronger role's accessible candidates, in index
order); it may still be absent from the stronger role's retrieve result
because department preference and limit truncation are applied after the
filter. -/
theorem retrieve_role_monotonic_access (registry : Registry) (vi : VectorIndex)
    (query role1 role2 : String) (top_k : Nat)
    (h1 : role1 ≠ "c-level")
    (h12 : ∀ p ∈ registry, role1 ∈ p.2.allowed_roles → role2 ∈ p.2.allowed_roles) :
    ∀ item ∈ RAGPipeline.retrieve registry vi query role1 top_k,
      item ∈ accessibleItems registry role2 (vi query (top_k * 3)) := by
  intro item hitem
  rcases mem_retrieve_access registry vi query role1 top_k item hitem with
    ⟨c, hc, heq, hacc⟩
  rcases hasAccess_resolve registry role1 c h1 hacc with ⟨m, hl, hr1⟩
  have hpair : ∃ p ∈ registry, p.2 = m := by
    unfold lookupMeta at hl
    rcases Option.map_eq_some'.mp hl with ⟨pr, hfind, hsnd⟩
    exact ⟨pr, List.mem_of_find?_eq_some hfind, hsnd⟩
  rcases hpair with ⟨pr, hmem, hsnd⟩
  have hr2 : role2 ∈ m.allowed_roles := by
    have := h12 pr hmem
    rw [hsnd] at this
    exact this hr1
  have hmem2 : role2 ∈ allowedRolesOf registry c.docId := by
    unfold allowedRolesOf
    rw [hl]
    exact hr2
  have hacc2 : hasAccess registry role2 c = true := by
    simp [hasAccess]
    exact Or.inl hmem2
  unfold accessibleItems
  exact List.mem_map.mpr ⟨c, List.mem_filter.mpr ⟨hc, hacc2⟩, heq.symm⟩

/-- C7 amended witness: the employee-to-finance subset pair on the sample
corpus. -/
theorem retrieve_role_monotonic_access_witness :
    (("employee" : String) ≠ "c-level") ∧
    (∀ p ∈ sampleRegistry, "employee" ∈ p.2.allowed_roles → "finance" ∈ p.2.allowed_roles) ∧
    ∀ item ∈ RAGPipeline.retrieve sampleRegistry sampleVi "revenue" "employee" 1,
      item ∈ accessibleItems sampleRegistry "finance" (sampleVi "revenue" (1 * 3)) :=
  ⟨by decide, by decide,
   retrieve_role_monotonic_access sampleRegistry sampleVi "revenue" "employee"
     "finance" 1 (by decide) (by decide)⟩

/-- C8 counterexample: a composer that fails with boom and a composer that
succeeds with the exact text Error generating response: boom produce
identical query results on a non-empty retrieval, so the failure is not a
distinct condition distinguishable from a successful answer: it is an
in-band string with HTTP 200 semantics and populated sources. -/
theorem generation_failure_indistinguishable_cex :
    RAGPipeline.retrieve sampleRegistry sampleVi "revenue" "finance" ≠ [] ∧
    RAGPipeline.query sampleRegistry sampleVi
        (fun _ _ => Except.error "boom") "revenue" "finance" =
      RAGPipeline.query sampleRegistry sampleVi
        (fun _ _ => Except.ok ("Error generating response: " ++ "boom"))
        "revenue" "finance" := by
  constructor
  · decide
  · rfl

/-- C8 amended: when the composer errors on a non-empty retrieval, query
still returns normally; the answer is the error text behind the fixed
prefix Error generating response, the sources still list the retrieved
labels in order, and this in-band message always differs from the
empty-result message; it is not a distinct error condition and is
indistinguishable from a successful answer with the same text. -/
theorem generation_failure_in_band (registry : Registry) (vi : VectorIndex)
    (compose : Composer) (question role e : String)
    (hne : RAGPipeline.retrieve registry vi question role ≠ [])
    (hfail : compose question (RAGPipeline.retrieve registry vi question role) =
      Except.error e) :
    (RAGPipeline.query registry vi compose question role).answer =
      "Error generating response: " ++ e ∧
    (RAGPipeline.query registry vi compose question role).sources =
      (RAGPipeline.retrieve registry vi question role).map (fun d => d.source) ∧
    "Error generating response: " ++ e ≠
      "No documents found accessible to " ++ role ++ " role for this query." := by
  have hEmp : (RAGPipeline.retrieve registry vi question role).isEmpty = false := by
    cases hl : RAGPipeline.retrieve registry vi question role with
    | nil => exact absurd hl hne
    | cons a l => rfl
  refine ⟨?_, ?_, ?_⟩
  · simp [RAGPipeline.query, hEmp, RAGPipeline.generate_response, hfail]
  · simp [RAGPipeline.query, hEmp]
  · intro h
    have h1 : ("Error generating response: " ++ e).data.head? = some 'E' := by
      rw [string_data_append]
      rfl
    have h2 : ("No documents found accessible to " ++ role ++
        " role for this query.").data.head? = some 'N' := by
      rw [string_data_append, string_data_append]
      rfl
    rw [h] at h1
    rw [h2] at h1
    exact absurd h1 (by decide)

/-- C8 amended witness: a composer failing with boom for the finance role. -/
theorem generation_failure_in_band_witness :
    RAGPipeline.retrieve sampleRegistry sampleVi "revenue" "finance" ≠ [] ∧
    (RAGPipeline.query sampleRegistry sampleVi
        (fun _ _ => Except.error "boom") "revenue" "finance").answer =
      "Error generating response: " ++ "boom" :=
  ⟨by decide,
   (generation_failure_in_band sampleRegistry sampleVi
     (fun _ _ => Except.error "boom") "revenue" "finance" "boom"
     (by decide) rfl).1⟩

/-- C9: upload is c-level only.  For every caller role other than c-level
the upload endpoint returns 403 Forbidden with the state exactly as given:
no registry entry, no collection entry; the result is a constant in which
the file content does not occur, so the rejection precedes any read or
parse of the file. -/
theorem upload_forbidden_for_non_clevel
    (csvRead pdfRead : String → Except String String) (st : PipelineState)
    (filename file_content : String) (department? : Option String) (role : String)
    (hrole : role ≠ "c-level") :
    upload_document csvRead pdfRead st filename file_content department? role =
      (st, Except.error (HTTPError.forbidden
        "Only C-level executives can upload documents")) := by
  have hb : (role != "c-level") = true := by
    simpa using hrole
  simp [upload_document, hb]

/-- C9 witness: a finance caller is rejected with 403 and unchanged state. -/
theorem upload_forbidden_for_non_clevel_witness :
    (("finance" : String) ≠ "c-level") ∧
    upload_document (fun _ => Except.error "x") (fun _ => Except.error "x")
        sampleState "report.md" "hello world" none "finance" =
      (sampleState, Except.error (HTTPError.forbidden
        "Only C-level executives can upload documents")) :=
  ⟨by decide,
   upload_forbidden_for_non_clevel (fun _ => Except.error "x")
     (fun _ => Except.error "x") sampleState "report.md" "hello world" none
     "finance" (by decide)⟩

/-- C10: a candidate with no department key in its index metadata gets the
empty-string department, is classified department-specific, and only the
exact string general reaches the universal group; in the final retrieve
result every department-specific entry precedes every universal entry. -/
theorem missing_department_is_specific (registry : Registry) (vi : VectorIndex)
    (query role : String) (top_k : Nat) :
    (∀ c ∈ vi query (top_k * 3), hasAccess registry role c = true →
      c.metadata.department = none →
        toDocItem c ∈ (partitionDocs registry role (vi query (top_k * 3))).1 ∧
        (toDocItem c).department = "") ∧
    (∀ item ∈ (partitionDocs registry role (vi query (top_k * 3))).2,
      item.department = "general") ∧
    ∃ xs ys, RAGPipeline.retrieve registry vi query role top_k = xs ++ ys ∧
      (∀ x ∈ xs, x.department ≠ "general") ∧
      (∀ y ∈ ys, y.department = "general") := by
  refine ⟨?_, mem_partition_snd_dept registry role (vi query (top_k * 3)), ?_⟩
  · intro c hc hacc hdept
    constructor
    · rw [partitionDocs_eq]
      refine List.mem_map.mpr ⟨c, List.mem_filter.mpr ⟨hc, ?_⟩, rfl⟩
      simp [hacc, isGeneralCand, hdept]
    · simp [toDocItem, hdept]
  · refine ⟨(partitionDocs registry role (vi query (top_k * 3))).1.take top_k,
      (partitionDocs registry role (vi query (top_k * 3))).2.take
        (top_k - ((partitionDocs registry role (vi query (top_k * 3))).1.take top_k).length),
      retrieve_eq registry vi query role top_k, ?_, ?_⟩
    · intro x hx
      exact mem_partition_fst_dept registry role (vi query (top_k * 3)) x
        (List.mem_of_mem_take hx)
    · intro y hy
      exact mem_partition_snd_dept registry role (vi query (top_k * 3)) y
        (List.mem_of_mem_take hy)

/-- C10 witness: an accessible candidate with no department key lands in
the department-specific group with the empty-string department. -/
theorem missing_department_is_specific_witness :
    candNoDept ∈ (fun (_ : String) (_ : Nat) => [candNoDept, candB]) "q" (3 * 3) ∧
    hasAccess sampleRegistry "finance" candNoDept = true ∧
    toDocItem candNoDept ∈
      (partitionDocs sampleRegistry "finance"
        ((fun (_ : String) (_ : Nat) => [candNoDept, candB]) "q" (3 * 3))).1 ∧
    (toDocItem candNoDept).department = "" :=
  ⟨by decide, by decide,
   (missing_department_is_specific sampleRegistry
       (fun _ _ => [candNoDept, candB]) "q" "finance" 3).1 candNoDept
     (by decide) (by decide) rfl⟩
